import Mathlib

/-!
Verification of the klaviyo-dashboard attribution/aggregation backend.

This file is a shallow embedding, in Lean 4, of the request-scoped report
pipeline of the repository (the three Express servers: src/server.js,
src/unnamed/part_000 and src/unnamed/part_001), together with theorems that
settle the behavioural claims about it.

Modelling conventions, used uniformly below:
  * JavaScript runtime values that appear in event properties, attribution
    records and metric-aggregate measurements are modelled by `JsVal`
    (undefined, null, numbers as exact rationals, and strings carrying their
    JS numeric coercion as data; a string whose coercion field is `none`
    coerces to NaN).  `Number`, `parseFloat` and `parseInt` are modelled on
    top of this coercion data; NaN results are `Option.none`.
  * JS objects used as string-keyed dictionaries are association lists
    `List (String × JsVal)`; a missing key reads as `JsVal.jundef`, which is
    observationally identical to an explicit `undefined` entry for every
    operation the source performs (`!== undefined`, `!== null`, truthiness,
    numeric coercion).
  * Timestamps are integers (milliseconds since the epoch); `Date` parsing
    and `toISOString` round-trips are identities in the model and the local
    clock is passed in as a parameter, so `setDate(getDate() - n)` is
    modelled as subtracting `n` whole days of milliseconds (daylight-saving
    shifts are not modelled).
  * Each upstream HTTP response is an input to the embedded endpoint
    function.  An optional upstream call whose failure the source catches
    and replaces by an empty result is modelled by supplying the empty
    result, which the catch branch produces.
-/

set_option linter.unusedVariables false

namespace KlaviyoDashboard

/-- A JavaScript value as it can occur in event properties and aggregate
measurements: `undefined`, `null`, a (finite) number, or a string.  A string
carries `numCoerce`, the rational obtained by applying the JS numeric
conversion to it (`none` when the conversion yields NaN). -/
inductive JsVal where
  | jundef : JsVal
  | jnull : JsVal
  | jnum (q : ℚ) : JsVal
  | jstr (s : String) (numCoerce : Option ℚ) : JsVal
deriving DecidableEq, Repr

namespace JsVal

/-- JS truthiness of a value: `undefined`, `null`, `0` and `""` are falsy. -/
def truthy : JsVal → Bool
  | jundef => false
  | jnull => false
  | jnum q => q != 0
  | jstr s _ => s != ""

/-- JS `Number(v)`; `none` models NaN.  `Number(null) = 0`,
`Number(undefined) = NaN`, and a string coerces through its recorded
coercion. -/
def toNumber : JsVal → Option ℚ
  | jundef => none
  | jnull => some 0
  | jnum q => some q
  | jstr _ c => c

/-- JS `parseFloat(v)`; differs from `Number` on `null` (NaN); string
prefix-parsing is identified with the recorded coercion. -/
def parseFloat : JsVal → Option ℚ
  | jundef => none
  | jnull => none
  | jnum q => some q
  | jstr _ c => c

end JsVal

/-- Truncation of a rational toward zero, the rounding JS `parseInt`
performs on a decimal representation. -/
def ratTrunc (q : ℚ) : ℤ :=
  if q < 0 then -((-q).floor) else q.floor

/-- JS `parseInt(v)`; `none` models NaN. -/
def jsParseInt (v : JsVal) : Option ℤ :=
  (v.parseFloat).map ratTrunc

/-- A JS object holding event properties or attribution attributes. -/
abbrev PropsMap := List (String × JsVal)

/-- Property read `obj[key]`: a missing key yields `undefined`. -/
def getProp (props : PropsMap) (k : String) : JsVal :=
  (props.lookup k).getD JsVal.jundef

/-- JS short-circuit `a || b` on property values: the first operand when it
is truthy, the second otherwise. -/
def jsOr (a b : JsVal) : JsVal :=
  if a.truthy then a else b

/-! ## Reporting window (`getLast30Days`)

Three copies exist in the repository.  `src/server.js` and
`src/unnamed/part_000` subtract 30 days from the current date; the copy in
`src/unnamed/part_001` subtracts 31 days although its own comment says
"get date 30 days ago". -/

/-- Milliseconds in one day. -/
def msPerDay : ℤ := 86400000

/-- The window as `src/server.js` computes it (also the
`src/unnamed/part_000` copy): `start` is the current time moved back 30
days, `end` is the current time. -/
def getLast30Days (now : ℤ) : ℤ × ℤ :=
  (now - 30 * msPerDay, now)

/-- The window as the `src/unnamed/part_001` copy computes it: `start` is
the current time moved back 31 days. -/
def getLast30Days_p001 (now : ℤ) : ℤ × ℤ :=
  (now - 31 * msPerDay, now)

/-! ## Revenue extraction (`extractRevenue`)

`src/server.js` lines 28-48; `src/unnamed/part_000` lines 35-59 and
`src/unnamed/part_001` lines 1335-1357 share a second body that returns the
raw `Number(props.$value)` (possibly NaN) instead of `Number(...) || 0`. -/

/-- The ordered fallback revenue fields consulted when `$value` is absent
or null. -/
def fallbackFields : List String :=
  ["value", "Value", "order_total", "total_price", "amount", "revenue"]

/-- The fallback loop shared by every `extractRevenue` copy: return the
first listed field whose value is present, non-null, and coerces to a
number strictly greater than 0; else 0. -/
def fallbackLoop (props : PropsMap) : List String → ℚ
  | [] => 0
  | f :: rest =>
    let v := getProp props f
    if v ≠ JsVal.jundef ∧ v ≠ JsVal.jnull then
      match v.toNumber with
      | some q => if 0 < q then q else fallbackLoop props rest
      | none => fallbackLoop props rest
    else fallbackLoop props rest

/-- `extractRevenue` from `src/server.js`: `0` on a missing map; on a
present, non-null `$value` the result is `Number($value) || 0`; otherwise
the fallback loop. -/
def extractRevenue (props? : Option PropsMap) : ℚ :=
  match props? with
  | none => 0
  | some props =>
    let v := getProp props "$value"
    if v ≠ JsVal.jundef ∧ v ≠ JsVal.jnull then
      match v.toNumber with
      | some q => q
      | none => 0
    else fallbackLoop props fallbackFields

/-- `extractRevenue` from `src/unnamed/part_001` (and part_000): the
`$value` branch returns the raw `Number($value)`, so the result can be NaN
(modelled as `none`). -/
def extractRevenue_p001 (props? : Option PropsMap) : Option ℚ :=
  match props? with
  | none => some 0
  | some props =>
    let v := getProp props "$value"
    if v ≠ JsVal.jundef ∧ v ≠ JsVal.jnull then
      v.toNumber
    else some (fallbackLoop props fallbackFields)

/-! ## Events and relationships -/

/-- A JSON:API relationship reference: `{type, id}`. -/
structure RelRef where
  type : String
  id : String
deriving DecidableEq, Repr

/-- A to-one relationship: `{data}` where `data` may be null. -/
structure RelData where
  data : Option RelRef
deriving DecidableEq, Repr

/-- A to-many relationship: `{data}` where `data` may be missing. -/
structure RelList where
  data : Option (List RelRef)
deriving DecidableEq, Repr

/-- The relationship block of an event. -/
structure Relationships where
  attributions : Option RelList := none
  campaign : Option RelData := none
  flow : Option RelData := none
deriving DecidableEq, Repr

/-- The attribute block of an event. -/
structure EventAttributes where
  event_properties : Option PropsMap := none
deriving DecidableEq, Repr

/-- An upstream event. -/
structure Event where
  id : String
  attributes : Option EventAttributes := none
  relationships : Option Relationships := none
deriving DecidableEq, Repr

/-- `event.attributes?.event_properties || {}` (also
`(event.attributes || {}).event_properties || {}`). -/
def Event.props (e : Event) : PropsMap :=
  ((e.attributes.bind (·.event_properties))).getD []

/-- `event.relationships || {}`. -/
def Event.rels (e : Event) : Relationships :=
  e.relationships.getD {}

/-- The attribute block of an included `attribution` record. -/
structure AttributionAttributes where
  attributed_message : JsVal := JsVal.jundef
  campaign_id : JsVal := JsVal.jundef
  message_id : JsVal := JsVal.jundef
  flow_id : JsVal := JsVal.jundef
deriving DecidableEq, Repr

/-- An item of a response `included` array. -/
structure IncludedItem where
  id : String
  type : String
  attributes : Option AttributionAttributes := none
deriving DecidableEq, Repr

/-! ## Campaign attribution resolvers -/

/-- The attribution-relationship loop of `extractCampaignId`
(src/server.js lines 79-91): walk the attribution references in order and
return, from the first one whose included record exists with a non-null
attribute block, `attributed_message || campaign_id || message_id`. -/
def attributionLoop (included : List IncludedItem) : List RelRef → Option JsVal
  | [] => none
  | ref :: rest =>
    match included.find? (fun inc => inc.id == ref.id && inc.type == "attribution") with
    | some attribution =>
      match attribution.attributes with
      | some attrs =>
        some (jsOr attrs.attributed_message (jsOr attrs.campaign_id attrs.message_id))
      | none => attributionLoop included rest
    | none => attributionLoop included rest

/-- The final `relationships.campaign` step of `extractCampaignId`:
`campaign.data?.id` when the campaign relationship exists, else `null`. -/
def campaignRelTail (rels : Relationships) : JsVal :=
  match rels.campaign with
  | some c =>
    match c.data with
    | some ref => JsVal.jstr ref.id none
    | none => JsVal.jundef
  | none => JsVal.jnull

/-- `extractCampaignId(event, included)` from `src/server.js` lines 51-98:
the prioritized chain `$message_interaction`, `$attributed_campaign`,
`$attributed_message`, `$message`, `campaign_id` / `Campaign ID`, the
attributions relationship walk, then the direct campaign relationship;
`null` when nothing applies. -/
def extractCampaignId (e : Event) (included : List IncludedItem) : JsVal :=
  let eventProps := e.props
  if (getProp eventProps "$message_interaction").truthy then
    getProp eventProps "$message_interaction"
  else if (getProp eventProps "$attributed_campaign").truthy then
    getProp eventProps "$attributed_campaign"
  else if (getProp eventProps "$attributed_message").truthy then
    getProp eventProps "$attributed_message"
  else if (getProp eventProps "$message").truthy then
    getProp eventProps "$message"
  else if (getProp eventProps "campaign_id").truthy ∨
      (getProp eventProps "Campaign ID").truthy then
    jsOr (getProp eventProps "campaign_id") (getProp eventProps "Campaign ID")
  else
    let rels := e.rels
    match rels.attributions with
    | some attrRel =>
      match attributionLoop included (attrRel.data.getD []) with
      | some v => v
      | none => campaignRelTail rels
    | none => campaignRelTail rels

/-- The attribution-relationship `forEach` of the part_001
`/api/campaigns/by-status` handler (lines 1834-1843): unlike the
`src/server.js` loop it visits every reference and overwrites the candidate
each time an included attribution record is found, so the last match wins. -/
def byStatusAttributionFold (included : List IncludedItem) (refs : List RelRef)
    (init : JsVal) : JsVal :=
  refs.foldl (fun acc ref =>
    match included.find? (fun inc => inc.id == ref.id && inc.type == "attribution") with
    | some attribution =>
      jsOr ((attribution.attributes.map (·.campaign_id)).getD JsVal.jundef)
        ((attribution.attributes.map (·.message_id)).getD JsVal.jundef)
    | none => acc) init

/-- The campaign attribution of the part_001 `/api/campaigns/by-status`
handler (lines 1828-1848): `$attributed_campaign || campaign_id ||
Campaign ID`, then the attribution walk, then the direct campaign
relationship.  It never consults `$message_interaction`. -/
def extractCampaignId_byStatus_p001 (e : Event) (included : List IncludedItem) : JsVal :=
  let eventProps := e.props
  let rels := e.rels
  let campaignId := jsOr (getProp eventProps "$attributed_campaign")
    (jsOr (getProp eventProps "campaign_id") (getProp eventProps "Campaign ID"))
  let campaignId :=
    match rels.attributions with
    | some attrRel =>
      if ¬ campaignId.truthy then
        byStatusAttributionFold included (attrRel.data.getD []) campaignId
      else campaignId
    | none => campaignId
  if ¬ campaignId.truthy then
    match rels.campaign with
    | some c =>
      match c.data with
      | some ref => JsVal.jstr ref.id none
      | none => JsVal.jundef
    | none => campaignId
  else campaignId

/-! ## Pagination draining (src/server.js lines 190-223)

The do-while loop: request with no cursor, append the page items, follow
the `nextCursor` extracted from `links.next` while it is truthy.  The model
takes the upstream pages as a function from the optional cursor to the
returned page and a fuel bound on the number of requests. -/

/-- One upstream page: its items and the cursor extracted from
`links.next` (null when there is no next page). -/
structure Page (α : Type) where
  items : List α
  nextCursor : Option String
deriving DecidableEq, Repr

/-- JS truthiness of the cursor: `null` and `""` end the loop. -/
def cursorTruthy : Option String → Bool
  | none => false
  | some s => s != ""

/-- The pagination drain loop, with explicit fuel bounding the number of
requests; `none` means the fuel ran out before the loop terminated. -/
def drainPages {α : Type} (fetch : Option String → Page α) :
    Nat → Option String → List α → Option (List α)
  | 0, _, _ => none
  | fuel + 1, cursor, acc =>
    let page := fetch cursor
    let acc := acc ++ page.items
    if cursorTruthy page.nextCursor then
      drainPages fetch fuel page.nextCursor acc
    else
      some acc

/-! ## Metrics and metric lookup -/

/-- An upstream metric, keeping `attributes?.name` optional. -/
structure Metric where
  id : String
  name : Option String := none
deriving DecidableEq, Repr

/-- ASCII lowercasing of a character, as JS `toLowerCase` acts on the
metric and status names in play. -/
def lowerChar (c : Char) : Char :=
  if 65 ≤ c.toNat ∧ c.toNat ≤ 90 then Char.ofNat (c.toNat + 32) else c

/-- ASCII lowercasing of a string (JS `s.toLowerCase()` on the ASCII
names this code compares). -/
def lowerStr (s : String) : String := String.mk (s.data.map lowerChar)

/-- Character-list prefix test. -/
def isPrefixL : List Char → List Char → Bool
  | [], _ => true
  | _ :: _, [] => false
  | a :: as, b :: bs => a == b && isPrefixL as bs

/-- Character-list infix test. -/
def isInfixL (t : List Char) : List Char → Bool
  | [] => isPrefixL t []
  | b :: bs => isPrefixL t (b :: bs) || isInfixL t bs

/-- JS `s.includes(sub)`. -/
def strIncludes (s sub : String) : Bool := isInfixL sub.data s.data

/-- The Placed Order lookup of `src/server.js` `/api/campaigns`
(lines 159-162): exact name `Placed Order`, or lowercased name containing
`placed order`. -/
def findPlacedOrder_server (metrics : List Metric) : Option Metric :=
  metrics.find? (fun m =>
    m.name == some "Placed Order" ||
    (match m.name with
     | some n => strIncludes (lowerStr n) "placed order"
     | none => false))

/-- The Placed Order lookup of the part_001 `/api/revenue/total` handler
(lines 140-143): only the exact names `Placed Order` or `placed-order`
match. -/
def findPlacedOrder_p001 (metrics : List Metric) : Option Metric :=
  metrics.find? (fun m =>
    m.name == some "Placed Order" || m.name == some "placed-order")

/-- The metric lookup of the `src/server.js` `/api/campaigns/by-status`
handler (lines 639-642): exact name match or lowercase-equal match, in one
pass over the list. -/
def findMetricByName (metrics : List Metric) (metricName : String) : Option Metric :=
  metrics.find? (fun m =>
    m.name == some metricName ||
    (m.name.map lowerStr) == some (lowerStr metricName))

/-! ## Metric-aggregate responses -/

/-- A measurement value in a metric-aggregate row: an array of per-bucket
values or a single scalar. -/
inductive MVal where
  | arr (l : List JsVal)
  | val (v : JsVal)
deriving DecidableEq, Repr

/-- JS truthiness of a measurement value: every array is truthy. -/
def MVal.truthyM : MVal → Bool
  | .arr _ => true
  | .val v => v.truthy

/-- `parseFloat` folding of a measurement value, NaN contributing 0
(`isNaN(num) ? 0 : num`, resp. `parseFloat(v) || 0`). -/
def mvalSumFloat : MVal → ℚ
  | .arr l => l.foldl (fun acc v => acc + ((JsVal.parseFloat v).getD 0)) 0
  | .val v => (JsVal.parseFloat v).getD 0

/-- `parseInt(...) || 0` folding of a measurement value. -/
def mvalSumInt : MVal → ℤ
  | .arr l => l.foldl (fun acc v => acc + ((jsParseInt v).getD 0)) 0
  | .val v => (jsParseInt v).getD 0

/-- The measurements object of an aggregate row. -/
structure MeasObj where
  sum_value : Option MVal := none
  count : Option MVal := none
deriving DecidableEq, Repr

/-- One row (group) of a metric-aggregate response.  Dimension values are
the strings the upstream groups by; a missing index reads as `none`. -/
structure AggGroup where
  dimensions : Option (List String) := none
  measurements : Option MeasObj := none
deriving DecidableEq, Repr

/-- Association-list update `m[k] = (m[k] || 0) + v`, appending a fresh
key at the end as a JS object insertion does. -/
def addTo {α : Type} [Add α] : List (String × α) → String → α → List (String × α)
  | [], k, v => [(k, v)]
  | (k', v') :: rest, k, v =>
    if k' = k then (k', v' + v) :: rest else (k', v') :: addTo rest k v

/-- Association-list assignment `m[k] = v` (overwrite in place, append
when fresh). -/
def setKey {α : Type} : List (String × α) → String → α → List (String × α)
  | [], k, v => [(k, v)]
  | (k', v') :: rest, k, v =>
    if k' = k then (k', v) :: rest else (k', v') :: setKey rest k v

/-- Map read `m[k] || d`. -/
def lookupD {α : Type} (m : List (String × α)) (k : String) (d : α) : α :=
  (m.lookup k).getD d

/-- Removal of the first entry carrying a key (proof infrastructure for
reasoning about association-list sums; not part of the source). -/
def kerase {α : Type} : List (String × α) → String → List (String × α)
  | [], _ => []
  | (k', v') :: rest, k => if k' = k then rest else (k', v') :: kerase rest k

/-- Total-revenue extraction of the part_001 `/api/revenue/total` handler
(lines 218-240): over every group whose `sum_value` is present and truthy,
accumulate the `parseFloat` sum (NaN contributing 0). -/
def extractTotalRevenue (d : Option (List AggGroup)) : ℚ :=
  match d with
  | none => 0
  | some groups =>
    groups.foldl (fun acc g =>
      match g.measurements.bind (·.sum_value) with
      | some mv => if mv.truthyM then acc + mvalSumFloat mv else acc
      | none => acc) 0

/-- `group.dimensions?.[0] || 'unknown'`. -/
def dims0OrUnknown (dims : List String) : String :=
  match dims.head? with
  | some s => if s = "" then "unknown" else s
  | none => "unknown"

/-- Grouped revenue extraction (part_001 lines 326-351, used for
`attributedFlowRevenue`): for every group with a truthy `sum_value` and a
dimensions array, add the `parseFloat` sum under `dimensions[0] ||
'unknown'`. -/
def extractGroupedSum (d : Option (List AggGroup)) : List (String × ℚ) :=
  match d with
  | none => []
  | some groups =>
    groups.foldl (fun m g =>
      match g.measurements.bind (·.sum_value), g.dimensions with
      | some mv, some dims =>
        if mv.truthyM then addTo m (dims0OrUnknown dims) (mvalSumFloat mv) else m
      | _, _ => m) []

/-- Grouped count extraction (part_001 lines 388-411, used for
`flowConversionsFromRevenue`): for every group whose `count` is present
(no truthiness test) with a dimensions array, add the `parseInt` sum under
`dimensions[0] || 'unknown'`. -/
def extractGroupedCount (d : Option (List AggGroup)) : List (String × ℤ) :=
  match d with
  | none => []
  | some groups =>
    groups.foldl (fun m g =>
      match g.measurements.bind (·.count), g.dimensions with
      | some mv, some dims => addTo m (dims0OrUnknown dims) (mvalSumInt mv)
      | _, _ => m) []

/-- Engagement count-map extraction (part_001 lines 591-608 for opens and
the parallel blocks for clicks, recipients, and the per-flow maps at lines
1099-1244): for every group whose `dimensions[0]` is a truthy key and whose
`count` is present, add the `parseInt` sum under that key. -/
def extractCountMap (d : Option (List AggGroup)) : List (String × ℤ) :=
  match d with
  | none => []
  | some groups =>
    groups.foldl (fun m g =>
      match g.dimensions.bind List.head? with
      | some mid =>
        if mid ≠ "" then
          match g.measurements.bind (·.count) with
          | some mv => addTo m mid (mvalSumInt mv)
          | none => m
        else m
      | none => m) []

/-- Per-campaign revenue extraction (part_001 lines 777-808): over the
rows of the campaign-filtered aggregate, skip any row whose
`dimensions[0]` differs from the campaign id, and accumulate the
`parseFloat || 0` sum of `sum_value` when present. -/
def campaignRevenueFrom (cid : String) (d : Option (List AggGroup)) : ℚ :=
  match d with
  | none => 0
  | some rows =>
    rows.foldl (fun acc row =>
      if row.dimensions.bind List.head? = some cid then
        match row.measurements.bind (·.sum_value) with
        | some mv => acc + mvalSumFloat mv
        | none => acc
      else acc) 0

/-- Per-campaign conversion-count extraction (part_001 lines 813-870):
same row filter, accumulating the `parseInt || 0` sum of `count`. -/
def campaignConversionsFrom (cid : String) (d : Option (List AggGroup)) : ℤ :=
  match d with
  | none => 0
  | some rows =>
    rows.foldl (fun acc row =>
      if row.dimensions.bind List.head? = some cid then
        match row.measurements.bind (·.count) with
        | some mv => acc + mvalSumInt mv
        | none => acc
      else acc) 0

/-! ## Campaigns, flows and the assembled report -/

/-- JS `a || b` on optional scalars (timestamps, names): the left value
when present and non-default, else the right.  For strings `""` is falsy. -/
def optOr {α : Type} (a b : Option α) : Option α :=
  match a with
  | some x => some x
  | none => b

/-- JS `s || d` on an optional string, where the empty string is falsy. -/
def strOr (a : Option String) (d : String) : String :=
  match a with
  | some s => if s = "" then d else s
  | none => d

/-- The attribute block of a campaign. -/
structure CampaignAttrs where
  name : Option String := none
  status : Option String := none
  created_at : Option ℤ := none
  updated_at : Option ℤ := none
  send_time : Option ℤ := none
  scheduled_at : Option ℤ := none
deriving DecidableEq, Repr

/-- An upstream campaign; `campaign_messages` is
`relationships?.campaign_messages?.data`. -/
structure Campaign where
  id : String
  attributes : CampaignAttrs := {}
  campaign_messages : Option (List RelRef) := none
deriving DecidableEq, Repr

/-- An included `campaign-message` record; `campaign` is
`relationships?.campaign?.data?.id`. -/
structure CampaignMessageItem where
  id : String
  type : String := "campaign-message"
  campaign : Option String := none
  label : Option String := none
  channel : Option String := none
deriving DecidableEq, Repr

/-- An upstream flow. -/
structure Flow where
  id : String
  name : Option String := none
  status : Option String := none
  created : Option ℤ := none
  updated : Option ℤ := none
deriving DecidableEq, Repr

/-- The 30-day recency filter applied to fetched campaigns (part_001
lines 481-486): `new Date(updated_at || created_at) >= thirtyDaysAgo`; an
invalid date compares false. -/
def campaignInWindow (now : ℤ) (c : Campaign) : Bool :=
  match optOr c.attributes.updated_at c.attributes.created_at with
  | some d => d ≥ now - 30 * msPerDay
  | none => false

/-- The draft-status filter applied to fetched flows (part_001 lines
991-994, 1055-1058, 1607-1610): keep flows whose
`(attributes?.status || '').toLowerCase()` differs from `draft`. -/
def flowNotDraft (f : Flow) : Bool :=
  lowerStr (f.status.getD "") != "draft"

/-- The message ids collected for a campaign (part_001 lines 526-541):
the ids of its `campaign-message` relationship references, in order. -/
def messageIdsFor (c : Campaign) : List String :=
  (c.campaign_messages.getD []).filterMap
    (fun r => if r.type == "campaign-message" then some r.id else none)

/-- The message type of a campaign (part_001 lines 507-524, 549): the
channel of the first included `campaign-message` of this campaign carrying
a truthy channel, else `unknown`. -/
def messageTypeFor (included : List CampaignMessageItem) (cid : String) : String :=
  match included.find? (fun it =>
      it.type == "campaign-message" && it.campaign == some cid &&
      (it.channel.getD "") != "") with
  | some it => it.channel.getD ""
  | none => "unknown"

/-- The per-campaign metrics record initialised and filled by the loop at
part_001 lines 729-906. -/
structure CMetrics where
  messageType : String := "unknown"
  revenue : ℚ := 0
  recipients : ℤ := 0
  opens : ℤ := 0
  clicks : ℤ := 0
  conversions : ℤ := 0
  openRate : ℚ := 0
  clickRate : ℚ := 0
deriving DecidableEq, Repr

/-- The local per-message accumulation `x += map[messageId] || 0`
(part_001 lines 880-885). -/
def sumOverMessages (m : List (String × ℤ)) (ids : List String) : ℤ :=
  ids.foldl (fun acc i => acc + lookupD m i 0) 0

/-- The body of the per-campaign metrics loop (part_001 lines 729-906):
revenue and conversions from the campaign-filtered aggregates, engagement
counts summed locally over the campaign's message ids — falling back to
the campaign id as the message key when no message ids are known — and
rates computed only when `recipients > 0`. -/
def campaignMetricsFor (cid : String) (messageIds : List String)
    (messageType : String) (revenueAgg conversionsAgg : Option (List AggGroup))
    (opensMap clicksMap recipientsMap : List (String × ℤ)) : CMetrics :=
  let revenue := campaignRevenueFrom cid revenueAgg
  let conversions := campaignConversionsFrom cid conversionsAgg
  let opens := if messageIds.length > 0 then sumOverMessages opensMap messageIds
    else lookupD opensMap cid 0
  let clicks := if messageIds.length > 0 then sumOverMessages clicksMap messageIds
    else lookupD clicksMap cid 0
  let recipients := if messageIds.length > 0 then sumOverMessages recipientsMap messageIds
    else lookupD recipientsMap cid 0
  { messageType := messageType
    revenue := revenue
    recipients := recipients
    opens := opens
    clicks := clicks
    conversions := conversions
    openRate := if recipients > 0 then (opens : ℚ) / (recipients : ℚ) * 100 else 0
    clickRate := if recipients > 0 then (clicks : ℚ) / (recipients : ℚ) * 100 else 0 }

/-- A campaign row of the assembled report (part_001 lines 1019-1034). -/
structure CampaignRow where
  id : String
  name : String
  status : String
  sendDate : Option ℤ
  createdAt : Option ℤ
  updatedAt : Option ℤ
  messageType : String
  recipients : ℤ
  opens : ℤ
  clicks : ℤ
  revenue : ℚ
  conversions : ℤ
  openRate : ℚ
  clickRate : ℚ
deriving DecidableEq, Repr

/-- A flow row of the assembled report (part_001 lines 1275-1288). -/
structure FlowRow where
  id : String
  name : String
  status : String
  createdAt : Option ℤ
  updatedAt : Option ℤ
  recipients : ℤ
  opens : ℤ
  clicks : ℤ
  revenue : ℚ
  conversions : ℤ
  openRate : ℚ
  clickRate : ℚ
deriving DecidableEq, Repr

/-- The success payload of `/api/revenue/total` (part_001 lines
1298-1308). -/
structure RevenueTotalReport where
  totalRevenue : ℚ
  totalCampaigns : ℕ
  totalFlows : ℕ
  attributedCampaignRevenue : List (String × ℚ)
  attributedFlowRevenue : List (String × ℚ)
  campaigns : List CampaignRow
  flows : List FlowRow
  timeframe : String
deriving DecidableEq, Repr

/-- The `/api/revenue/total` response: either the early error envelope or
the success payload. -/
inductive RevenueTotalResult where
  | failure (error : String)
  | success (report : RevenueTotalReport)
deriving DecidableEq, Repr

/-- Every upstream response consumed by one `/api/revenue/total` request.
A `none` aggregate stands both for a failed optional call (whose catch
leaves the corresponding map untouched) and for a response without a
`data.attributes.data` field; a fetch the source replaces by an empty list
in its catch handler is modelled by the empty list. -/
structure RevenueTotalInputs where
  now : ℤ
  metrics : List Metric
  metrics2 : List Metric
  totalAggData : Option (List AggGroup) := none
  flowRevenueAggData : Option (List AggGroup) := none
  flowConversionsAggData : Option (List AggGroup) := none
  emailCampaigns : List Campaign := []
  smsCampaigns : List Campaign := []
  included : List CampaignMessageItem := []
  opensAggData : Option (List AggGroup) := none
  clicksAggData : Option (List AggGroup) := none
  recipientsAggData : Option (List AggGroup) := none
  campaignRevenueAgg : String → Option (List AggGroup) := fun _ => none
  campaignConversionsAgg : String → Option (List AggGroup) := fun _ => none
  emailCampaigns2 : List Campaign := []
  smsCampaigns2 : List Campaign := []
  flowsA : List Flow := []
  flowsB : List Flow := []
  flowOpensAggData : Option (List AggGroup) := none
  flowClicksAggData : Option (List AggGroup) := none
  flowRecipientsAggData : Option (List AggGroup) := none

/-- An engagement metric id as part_001 lines 262-287 compute it: the
exact-name lookup, retained only when the found id is truthy. -/
def engagementMetricId (metrics2 : List Metric) (metricName : String) : Option String :=
  (metrics2.find? (fun m => m.name == some metricName)).bind
    (fun m => if m.id ≠ "" then some m.id else none)

/-- The campaign row built at part_001 lines 1019-1034 from a fetched
campaign and its metrics record. -/
def mkCampaignRow (c : Campaign) (metrics : CMetrics) : CampaignRow :=
  { id := c.id
    name := strOr c.attributes.name "Unnamed Campaign"
    status := strOr c.attributes.status "unknown"
    sendDate := optOr c.attributes.send_time
      (optOr c.attributes.scheduled_at c.attributes.created_at)
    createdAt := c.attributes.created_at
    updatedAt := c.attributes.updated_at
    messageType := metrics.messageType
    recipients := metrics.recipients
    opens := metrics.opens
    clicks := metrics.clicks
    revenue := metrics.revenue
    conversions := metrics.conversions
    openRate := metrics.openRate
    clickRate := metrics.clickRate }

/-- The flow row built at part_001 lines 1256-1288 from a fetched flow
and the flow-keyed maps. -/
def mkFlowRow (f : Flow) (flowRevMap : List (String × ℚ))
    (flowConvMap : List (String × ℤ))
    (flowOpensMap flowClicksMap flowRecipientsMap : List (String × ℤ)) : FlowRow :=
  let opens := lookupD flowOpensMap f.id 0
  let clicks := lookupD flowClicksMap f.id 0
  let recipients := lookupD flowRecipientsMap f.id 0
  { id := f.id
    name := strOr f.name "Unnamed Flow"
    status := strOr f.status "unknown"
    createdAt := f.created
    updatedAt := f.updated
    recipients := recipients
    opens := opens
    clicks := clicks
    revenue := lookupD flowRevMap f.id 0
    conversions := lookupD flowConvMap f.id 0
    openRate := if recipients > 0 then (opens : ℚ) / (recipients : ℚ) * 100 else 0
    clickRate := if recipients > 0 then (clicks : ℚ) / (recipients : ℚ) * 100 else 0 }

/-- The campaigns the first fetch of `/api/revenue/total` keeps after the
30-day recency filter (part_001 lines 475-486). -/
def filteredCampaignsOf (inp : RevenueTotalInputs) : List Campaign :=
  (inp.emailCampaigns ++ inp.smsCampaigns).filter (campaignInWindow inp.now)

/-- The `campaignToMessageIds` object (part_001 lines 489-550): one entry
per distinct filtered campaign id, a later duplicate overwriting an
earlier one as JS object assignment does. -/
def campaignToMessageIdsOf (inp : RevenueTotalInputs) : List (String × List String) :=
  (filteredCampaignsOf inp).foldl (fun m c => setKey m c.id (messageIdsFor c)) []

/-- The message-keyed opens map (part_001 lines 562-613), empty when the
Opened Email metric is unavailable. -/
def messageOpensMapOf (inp : RevenueTotalInputs) : List (String × ℤ) :=
  if (engagementMetricId inp.metrics2 "Opened Email").isSome then
    extractCountMap inp.opensAggData
  else []

/-- The message-keyed clicks map (part_001 lines 616-667). -/
def messageClicksMapOf (inp : RevenueTotalInputs) : List (String × ℤ) :=
  if (engagementMetricId inp.metrics2 "Clicked Email").isSome then
    extractCountMap inp.clicksAggData
  else []

/-- The message-keyed recipients map (part_001 lines 670-721). -/
def messageRecipientsMapOf (inp : RevenueTotalInputs) : List (String × ℤ) :=
  if (engagementMetricId inp.metrics2 "Received Email").isSome then
    extractCountMap inp.recipientsAggData
  else []

/-- The `campaignMetrics` object filled by the per-campaign loop
(part_001 lines 723-908). -/
def campaignMetricsOf (inp : RevenueTotalInputs) : List (String × CMetrics) :=
  (campaignToMessageIdsOf inp).map (fun p =>
    (p.1, campaignMetricsFor p.1 p.2 (messageTypeFor inp.included p.1)
      (inp.campaignRevenueAgg p.1) (inp.campaignConversionsAgg p.1)
      (messageOpensMapOf inp) (messageClicksMapOf inp)
      (messageRecipientsMapOf inp)))

/-- The `attributedCampaignRevenue` object (part_001 line 808). -/
def attributedCampaignRevenueOf (inp : RevenueTotalInputs) : List (String × ℚ) :=
  (campaignMetricsOf inp).map (fun p => (p.1, p.2.revenue))

/-- The `filteredCampaigns` variable as it stands after section 2
(part_001 lines 956-968): when the first fetch filtered to nothing the
refetch is filtered and assigned in its place, and the campaigns table is
then built from it. -/
def filteredCampaigns2Of (inp : RevenueTotalInputs) : List Campaign :=
  if (filteredCampaignsOf inp).isEmpty then
    (inp.emailCampaigns2 ++ inp.smsCampaigns2).filter (campaignInWindow inp.now)
  else filteredCampaignsOf inp

/-- The campaigns table (part_001 lines 1002-1038): one row per campaign,
its metrics looked up by campaign id with an all-zero default. -/
def campaignsTableOf (inp : RevenueTotalInputs) : List CampaignRow :=
  (filteredCampaigns2Of inp).map (fun c =>
    mkCampaignRow c (lookupD (campaignMetricsOf inp) c.id {}))

/-- The non-draft flows the flows table is built from (part_001 lines
1052-1058). -/
def activeFlowsOf (inp : RevenueTotalInputs) : List Flow :=
  inp.flowsB.filter flowNotDraft

/-- The flow-keyed opens map (part_001 lines 1066-1126). -/
def flowOpensMapOf (inp : RevenueTotalInputs) : List (String × ℤ) :=
  if (engagementMetricId inp.metrics2 "Opened Email").isSome then
    extractCountMap inp.flowOpensAggData
  else []

/-- The flow-keyed clicks map (part_001 lines 1128-1187). -/
def flowClicksMapOf (inp : RevenueTotalInputs) : List (String × ℤ) :=
  if (engagementMetricId inp.metrics2 "Clicked Email").isSome then
    extractCountMap inp.flowClicksAggData
  else []

/-- The flow-keyed recipients map (part_001 lines 1189-1248). -/
def flowRecipientsMapOf (inp : RevenueTotalInputs) : List (String × ℤ) :=
  if (engagementMetricId inp.metrics2 "Received Email").isSome then
    extractCountMap inp.flowRecipientsAggData
  else []

/-- The flows table (part_001 lines 1255-1289). -/
def flowsTableOf (inp : RevenueTotalInputs) : List FlowRow :=
  (activeFlowsOf inp).map (fun f =>
    mkFlowRow f (extractGroupedSum inp.flowRevenueAggData)
      (extractGroupedCount inp.flowConversionsAggData)
      (flowOpensMapOf inp) (flowClicksMapOf inp) (flowRecipientsMapOf inp))

/-- The success payload the `/api/revenue/total` handler of part_001
(lines 123-1316) assembles once the Placed Order metric is found, from
the component objects above, in the source order: total revenue, flow
revenue and conversions, campaign fetch and per-campaign metrics, total
campaign count, total flow count, campaigns table, flows table. -/
def revenueTotalReportOf (inp : RevenueTotalInputs) : RevenueTotalReport :=
  { totalRevenue := extractTotalRevenue inp.totalAggData
    totalCampaigns := (filteredCampaigns2Of inp).length
    totalFlows := (inp.flowsA.filter flowNotDraft).length
    attributedCampaignRevenue := attributedCampaignRevenueOf inp
    attributedFlowRevenue := extractGroupedSum inp.flowRevenueAggData
    campaigns := campaignsTableOf inp
    flows := flowsTableOf inp
    timeframe := "Last 30 days" }

/-- The `/api/revenue/total` handler: the early error envelope when no
metric matches the Placed Order lookup (part_001 lines 150-155), else the
assembled success payload. -/
def revenueTotal (inp : RevenueTotalInputs) : RevenueTotalResult :=
  match findPlacedOrder_p001 inp.metrics with
  | none => .failure "Placed Order metric not found"
  | some _placedOrderMetric => .success (revenueTotalReportOf inp)

/-! ## The `src/server.js` `/api/campaigns` missing-metric fallback -/

/-- A row of the degraded `/api/campaigns` response returned when the
Placed Order metric is absent (src/server.js lines 167-182). -/
structure FallbackCampaignRow where
  id : String
  name : Option String
  status : Option String
  sendDate : Option ℤ
  messageType : String
  recipients : ℤ
  opens : ℤ
  clicks : ℤ
  revenue : ℚ
  conversions : ℤ
deriving DecidableEq, Repr

/-- The fallback rows: identity and send date preserved, every metric
zero, with the message type telling sms campaigns from email ones. -/
def campaignsFallbackData (campaigns smsCampaigns : List Campaign) :
    List FallbackCampaignRow :=
  campaigns.map (fun c =>
    { id := c.id
      name := c.attributes.name
      status := c.attributes.status
      sendDate := optOr c.attributes.send_time c.attributes.created_at
      messageType := if (smsCampaigns.find? (fun s => s.id == c.id)).isSome
        then "sms" else "email"
      recipients := 0
      opens := 0
      clicks := 0
      revenue := 0
      conversions := 0 })

/-- Where the `src/server.js` `/api/campaigns` handler goes after the
metric lookup: the early degraded response, or onwards into the full event
pipeline (not needed by any claim and not modelled further). -/
inductive CampaignsOutcome where
  | earlyReturn (success : Bool) (data : List FallbackCampaignRow) (total : ℕ)
  | fullPipeline
deriving Repr

/-- The metric-lookup branch of the `src/server.js` `/api/campaigns`
handler (lines 158-183). -/
def serverCampaignsRoute (metrics : List Metric)
    (emailCampaigns smsCampaigns : List Campaign) : CampaignsOutcome :=
  let campaigns := emailCampaigns ++ smsCampaigns
  match findPlacedOrder_server metrics with
  | none =>
    .earlyReturn true (campaignsFallbackData campaigns smsCampaigns) campaigns.length
  | some _ => .fullPipeline

/-! ## Formal statements of the claims under test, and concrete inputs -/

/-- Claim C1 as stated: every attribution resolution in the cited code
(the `src/server.js` `extractCampaignId` and the part_001
`/api/campaigns/by-status` attribution) resolves an event carrying both a
`$message_interaction` and an `$attributed_campaign` property to the
message-interaction value. -/
def claimC1 : Prop :=
  ∀ (e : Event) (included : List IncludedItem),
    (getProp e.props "$message_interaction").truthy →
    (getProp e.props "$attributed_campaign").truthy →
    extractCampaignId e included = getProp e.props "$message_interaction" ∧
    extractCampaignId_byStatus_p001 e included = getProp e.props "$message_interaction"

/-- An event carrying both a message-interaction and an
attributed-campaign property, with different values. -/
def dualAttributionEvent : Event :=
  { id := "evt-1"
    attributes := some
      { event_properties := some
          [("$message_interaction", JsVal.jstr "MSG-1" none),
           ("$attributed_campaign", JsVal.jstr "CAMP-2" none)] } }

/-- Claim C2 as stated: in every successfully assembled report, the
per-campaign plus per-flow revenues never exceed the report total. -/
def claimC2 : Prop :=
  ∀ (inp : RevenueTotalInputs) (r : RevenueTotalReport),
    revenueTotal inp = .success r →
    ((r.campaigns.map (fun row => row.revenue)).sum +
      (r.flows.map (fun row => row.revenue)).sum) ≤ r.totalRevenue

/-- Inputs on which the upstream flow-grouped aggregate reports 100 of
revenue for flow `F1` while the ungrouped total aggregate reports 0: the
handler forwards both unreconciled. -/
def cexC2Input : RevenueTotalInputs :=
  { now := 0
    metrics := [{ id := "po", name := some "Placed Order" }]
    metrics2 := []
    totalAggData := some []
    flowRevenueAggData := some
      [{ dimensions := some ["F1"]
         measurements := some { sum_value := some (MVal.val (JsVal.jnum 100)) } }]
    flowsB := [{ id := "F1", name := some "Welcome Flow", status := some "live" }] }

/-- The rate bounds and equations claim C3 asserts of one report row. -/
def rateClaim (recipients opens clicks : ℤ) (openRate clickRate : ℚ) : Prop :=
  0 ≤ openRate ∧ openRate ≤ 100 ∧ 0 ≤ clickRate ∧ clickRate ≤ 100 ∧
  (recipients = 0 → openRate = 0 ∧ clickRate = 0) ∧
  (recipients ≠ 0 →
    openRate = (opens : ℚ) / (recipients : ℚ) * 100 ∧
    clickRate = (clicks : ℚ) / (recipients : ℚ) * 100)

/-- Claim C3 as stated, over every campaign row and flow row of every
successfully assembled report. -/
def claimC3 : Prop :=
  ∀ (inp : RevenueTotalInputs) (r : RevenueTotalReport),
    revenueTotal inp = .success r →
    (∀ row ∈ r.campaigns,
      rateClaim row.recipients row.opens row.clicks row.openRate row.clickRate) ∧
    (∀ row ∈ r.flows,
      rateClaim row.recipients row.opens row.clicks row.openRate row.clickRate)

/-- Inputs under which flow `F1` counts 2 opens against 1 recipient, so
its open rate is 200. -/
def cexC3Input : RevenueTotalInputs :=
  { now := 0
    metrics := [{ id := "po", name := some "Placed Order" }]
    metrics2 := [{ id := "oe", name := some "Opened Email" },
                 { id := "re", name := some "Received Email" }]
    flowsB := [{ id := "F1", name := some "Welcome Flow", status := some "live" }]
    flowOpensAggData := some
      [{ dimensions := some ["F1"]
         measurements := some { count := some (MVal.val (JsVal.jnum 2)) } }]
    flowRecipientsAggData := some
      [{ dimensions := some ["F1"]
         measurements := some { count := some (MVal.val (JsVal.jnum 1)) } }] }

/-- Claim C4 as stated: when no metric matches the Placed Order lookup,
the report endpoint still succeeds with a zero total. -/
def claimC4 : Prop :=
  ∀ inp : RevenueTotalInputs,
    findPlacedOrder_p001 inp.metrics = none →
    ∃ r, revenueTotal inp = .success r ∧ r.totalRevenue = 0

/-- Inputs whose account has metrics, none of them matching the Placed
Order lookup. -/
def cexC4Input : RevenueTotalInputs :=
  { now := 0
    metrics := [{ id := "m9", name := some "Checkout Started" }]
    metrics2 := []
    emailCampaigns := [{ id := "c1", attributes := { name := some "Spring Sale", updated_at := some 0 } }] }

/-- A metric-resolution procedure following the words of the spec:
exact case-sensitive name match; else case-insensitive exact match; else
case-insensitive substring match. -/
def specResolveMetric (metrics : List Metric) (name : String) : Option Metric :=
  match metrics.find? (fun m => m.name == some name) with
  | some m => some m
  | none =>
    match metrics.find? (fun m => (m.name.map lowerStr) == some (lowerStr name)) with
    | some m => some m
    | none =>
      metrics.find? (fun m =>
        match m.name with
        | some n => strIncludes (lowerStr n) (lowerStr name)
        | none => false)

/-- Claim C5 as stated: both cited Placed Order lookups behave like the
spec's tiered, case-insensitive resolution of the canonical name, so a
metric list resolvable under the name `placed order` resolves identically
under `Placed Order`. -/
def claimC5 : Prop :=
  ∀ metrics : List Metric,
    (findPlacedOrder_server metrics).map (fun m => m.id) =
      (specResolveMetric metrics "Placed Order").map (fun m => m.id) ∧
    (findPlacedOrder_p001 metrics).map (fun m => m.id) =
      (specResolveMetric metrics "Placed Order").map (fun m => m.id)

/-- Claim C7 as stated: a draft flow appears neither among the report's
flow rows nor in the attributed-flow-revenue totals of the report
output. -/
def claimC7 : Prop :=
  ∀ (inp : RevenueTotalInputs) (r : RevenueTotalReport),
    revenueTotal inp = .success r →
    ∀ f ∈ inp.flowsB, lowerStr (f.status.getD "") = "draft" →
      (∀ row ∈ r.flows, row.id ≠ f.id) ∧
      r.attributedFlowRevenue.lookup f.id = none

/-- Inputs with a single draft flow that the upstream flow-grouped
aggregate credits with 50 of revenue. -/
def cexC7Input : RevenueTotalInputs :=
  { now := 0
    metrics := [{ id := "po", name := some "Placed Order" }]
    metrics2 := []
    flowRevenueAggData := some
      [{ dimensions := some ["F1"]
         measurements := some { sum_value := some (MVal.val (JsVal.jnum 50)) } }]
    flowsB := [{ id := "F1", name := some "Draft Flow", status := some "draft" }] }

/-- Inputs with one active flow credited 50 of revenue, used to witness
the amended C7. -/
def witC7Input : RevenueTotalInputs :=
  { now := 0
    metrics := [{ id := "po", name := some "Placed Order" }]
    metrics2 := []
    flowRevenueAggData := some
      [{ dimensions := some ["F1"]
         measurements := some { sum_value := some (MVal.val (JsVal.jnum 50)) } }]
    flowsB := [{ id := "F1", name := some "Active Flow", status := some "live" }] }

/-- Inputs whose upstream aggregates are mutually consistent: the
ungrouped total reports 100 and the flow-grouped aggregate credits 50 to
the one active flow.  Used to witness the amended C2. -/
def witC2Input : RevenueTotalInputs :=
  { now := 0
    metrics := [{ id := "po", name := some "Placed Order" }]
    metrics2 := []
    totalAggData := some
      [{ dimensions := none
         measurements := some { sum_value := some (MVal.val (JsVal.jnum 100)) } }]
    flowRevenueAggData := some
      [{ dimensions := some ["F1"]
         measurements := some { sum_value := some (MVal.val (JsVal.jnum 50)) } }]
    flowsB := [{ id := "F1", name := some "Welcome Flow", status := some "live" }] }

/-- The first listed fallback revenue value that coerces to a strictly
positive number, else 0 — the characterization claim C10 gives of the
fallback branch. -/
def firstPosFallback (props : PropsMap) : ℚ :=
  ((fallbackFields.filterMap (fun f =>
      ((getProp props f).toNumber).bind (fun q => if 0 < q then some q else none))).head?).getD 0

/-! # General lemmas -/

theorem foldl_add_eq_sum {α M : Type} [AddCommMonoid M] (f : α → M)
    (l : List α) (a : M) :
    l.foldl (fun acc x => acc + f x) a = a + (l.map f).sum := by
  induction l generalizing a with
  | nil => simp
  | cons x xs ih => simp [ih, add_assoc]

theorem sumOverMessages_eq_sum (m : List (String × ℤ)) (ids : List String) :
    sumOverMessages m ids = (ids.map (fun i => lookupD m i 0)).sum := by
  simpa [sumOverMessages] using foldl_add_eq_sum (fun i => lookupD m i 0) ids 0

/-! # Claim theorems -/

/-- C9: the reporting window.  The `src/server.js` and part_000 copy of
`getLast30Days` spans exactly 30 days, but the part_001 copy spans 31
days, contradicting its own comment and the claim. -/
theorem getLast30Days_window_lengths (now : ℤ) :
    (getLast30Days now).2 - (getLast30Days now).1 = 30 * msPerDay ∧
    (getLast30Days_p001 now).2 - (getLast30Days_p001 now).1 = 31 * msPerDay ∧
    (31 : ℤ) * msPerDay ≠ 30 * msPerDay := by
  refine ⟨by simp [getLast30Days], by simp [getLast30Days_p001], by norm_num [msPerDay]⟩

/-- C6: pagination draining.  For pages chained by cursors
none → c2 → c3 → none, the drain loop of `src/server.js` lines 190-223
terminates and returns the page items concatenated in page order, each
exactly once. -/
theorem drainPages_three_pages {α : Type} (fetch : Option String → Page α)
    (p1 p2 p3 : List α) (c2 c3 : String)
    (hc2 : c2 ≠ "") (hc3 : c3 ≠ "")
    (h1 : fetch none = { items := p1, nextCursor := some c2 })
    (h2 : fetch (some c2) = { items := p2, nextCursor := some c3 })
    (h3 : fetch (some c3) = { items := p3, nextCursor := none }) :
    drainPages fetch 3 none [] = some (p1 ++ p2 ++ p3) := by
  simp [drainPages, h1, h2, h3, cursorTruthy, hc2, hc3]

/-- Witness for C6: a concrete three-page sequence drains to the ordered
concatenation of its items. -/
theorem drainPages_three_pages_witness :
    drainPages (fun c =>
      if c = none then { items := [1, 2], nextCursor := some "cur2" }
      else if c = some "cur2" then { items := [3], nextCursor := some "cur3" }
      else { items := [4, 5], nextCursor := none }) 3 none [] =
      some ([1, 2] ++ [3] ++ [4, 5]) :=
  drainPages_three_pages _ [1, 2] [3] [4, 5] "cur2" "cur3"
    (by decide) (by decide) (by decide) (by decide) (by decide)

theorem fallbackLoop_eq_firstPos (props : PropsMap) (l : List String) :
    fallbackLoop props l =
      ((l.filterMap (fun f => ((getProp props f).toNumber).bind
          (fun q => if 0 < q then some q else none))).head?).getD 0 := by
  induction l with
  | nil => rfl
  | cons f rest ih =>
    cases hv : getProp props f with
    | jundef => simp [fallbackLoop, hv, JsVal.toNumber, ih]
    | jnull => simp [fallbackLoop, hv, JsVal.toNumber, ih]
    | jnum q =>
      by_cases hq : 0 < q
      · simp [fallbackLoop, hv, JsVal.toNumber, hq]
      · simp [fallbackLoop, hv, JsVal.toNumber, hq, ih]
    | jstr s c =>
      cases c with
      | none => simp [fallbackLoop, hv, JsVal.toNumber, ih]
      | some q =>
        by_cases hq : 0 < q
        · simp [fallbackLoop, hv, JsVal.toNumber, hq]
        · simp [fallbackLoop, hv, JsVal.toNumber, hq, ih]

/-- C10: `extractRevenue`.  A missing map yields 0; a present, non-null
`$value` determines the result alone (any other fields may be discarded
without changing it), in every copy; otherwise the result is the first
fallback field coercing to a strictly positive number, else 0 (the
part_001 copy returning it as a defined number). -/
theorem extractRevenue_value_priority :
    extractRevenue none = 0 ∧ extractRevenue_p001 none = some 0 ∧
    ∀ props : PropsMap,
      if (getProp props "$value") ≠ JsVal.jundef ∧
          (getProp props "$value") ≠ JsVal.jnull then
        extractRevenue (some props) =
          extractRevenue (some [("$value", getProp props "$value")]) ∧
        extractRevenue_p001 (some props) = (getProp props "$value").toNumber
      else
        extractRevenue (some props) = firstPosFallback props ∧
        extractRevenue_p001 (some props) = some (firstPosFallback props) := by
  refine ⟨rfl, rfl, fun props => ?_⟩
  by_cases h : (getProp props "$value") ≠ JsVal.jundef ∧
      (getProp props "$value") ≠ JsVal.jnull
  · rw [if_pos h]
    have hv : getProp [("$value", getProp props "$value")] "$value" =
        getProp props "$value" := by simp [getProp]
    constructor
    · simp only [extractRevenue, hv, if_pos h]
    · simp only [extractRevenue_p001, if_pos h]
  · rw [if_neg h]
    constructor
    · simp only [extractRevenue, if_neg h, firstPosFallback,
        fallbackLoop_eq_firstPos]
    · simp only [extractRevenue_p001, if_neg h, firstPosFallback,
        fallbackLoop_eq_firstPos]

/-- C8: per-campaign engagement.  The engagement counts of the
per-campaign metrics record are the sums of the message-keyed maps over
the campaign's message ids — with the campaign id used as the message key
when no message ids are known — and in particular a campaign with
messages M1 (100 opens) and M2 (50 opens) reports 150 opens. -/
theorem campaign_engagement_sums (cid : String) (messageIds : List String)
    (messageType : String) (revenueAgg conversionsAgg : Option (List AggGroup))
    (opensMap clicksMap recipientsMap : List (String × ℤ)) :
    (let m := campaignMetricsFor cid messageIds messageType revenueAgg
      conversionsAgg opensMap clicksMap recipientsMap
    (m.opens = if messageIds = [] then lookupD opensMap cid 0
      else (messageIds.map (fun i => lookupD opensMap i 0)).sum) ∧
    (m.clicks = if messageIds = [] then lookupD clicksMap cid 0
      else (messageIds.map (fun i => lookupD clicksMap i 0)).sum) ∧
    (m.recipients = if messageIds = [] then lookupD recipientsMap cid 0
      else (messageIds.map (fun i => lookupD recipientsMap i 0)).sum)) ∧
    (campaignMetricsFor "C1" ["M1", "M2"] "email" none none
      [("M1", 100), ("M2", 50)] [] []).opens = 150 := by
  constructor
  · cases messageIds with
    | nil => exact ⟨rfl, rfl, rfl⟩
    | cons i rest =>
      refine ⟨?_, ?_, ?_⟩ <;>
        simp [campaignMetricsFor, sumOverMessages_eq_sum]
  · decide

/-- C1 (amended): `extractCampaignId` of `src/server.js` applies its
extractors in the fixed priority order, `$message_interaction` first and
`$attributed_campaign` second, each returned when it is the first truthy
value; the part_001 by-status attribution instead starts at
`$attributed_campaign` and never consults `$message_interaction`, so an
event carrying both resolves there to the attributed-campaign value. -/
theorem attribution_priority (e : Event) (included : List IncludedItem) :
    ((getProp e.props "$message_interaction").truthy →
      extractCampaignId e included = getProp e.props "$message_interaction") ∧
    (¬ (getProp e.props "$message_interaction").truthy →
      (getProp e.props "$attributed_campaign").truthy →
      extractCampaignId e included = getProp e.props "$attributed_campaign") ∧
    ((getProp e.props "$attributed_campaign").truthy →
      extractCampaignId_byStatus_p001 e included =
        getProp e.props "$attributed_campaign") := by
  refine ⟨fun h => ?_, fun h1 h2 => ?_, fun h => ?_⟩
  · simp [extractCampaignId, h]
  · simp [extractCampaignId, h1, h2]
  · cases hattr : e.rels.attributions <;>
      simp [extractCampaignId_byStatus_p001, hattr, jsOr, h]

/-- Counterexample to C1 as stated: on an event carrying
`$message_interaction = "MSG-1"` and `$attributed_campaign = "CAMP-2"`,
the part_001 by-status attribution resolves to `"CAMP-2"`, not to the
message-interaction value. -/
theorem attribution_priority_counterexample : ¬ claimC1 := by
  intro h
  exact absurd (h dualAttributionEvent []) (by decide)

/-- Witness for C1: on the concrete dual-attributed event,
`extractCampaignId` returns the message-interaction value and the
part_001 by-status attribution returns the attributed-campaign value. -/
theorem attribution_priority_witness :
    extractCampaignId dualAttributionEvent [] = JsVal.jstr "MSG-1" none ∧
    extractCampaignId_byStatus_p001 dualAttributionEvent [] =
      JsVal.jstr "CAMP-2" none := by
  have h := attribution_priority dualAttributionEvent []
  exact ⟨(h.1 (by decide)).trans (by decide), (h.2.2 (by decide)).trans (by decide)⟩

/-- Counterexample to C5 as stated: on the metric list holding exactly one
metric named `placed order`, the part_001 `/api/revenue/total` lookup
finds nothing although the spec's case-insensitive resolution of
`Placed Order` finds it. -/
theorem metric_lookup_counterexample : ¬ claimC5 := by
  intro h
  exact absurd (h [{ id := "m1", name := some "placed order" }]) (by decide)

/-- C5 (amended): metric resolution is not uniformly case-insensitive.
The `src/server.js` lookup accepts any name containing `placed order`
case-insensitively, so both spellings are found; the part_001
`/api/revenue/total` lookup is case-sensitive and exact, missing a metric
named `placed order`; the one name-parameterized lookup (the by-status
handler) is case-insensitive, resolving `Placed Order` and `placed order`
to the same metric on every list. -/
theorem metric_lookup_case_sensitivity :
    findPlacedOrder_server [{ id := "m1", name := some "placed order" }] =
      some { id := "m1", name := some "placed order" } ∧
    findPlacedOrder_server [{ id := "m1", name := some "Placed Order" }] =
      some { id := "m1", name := some "Placed Order" } ∧
    findPlacedOrder_p001 [{ id := "m1", name := some "placed order" }] = none ∧
    findPlacedOrder_p001 [{ id := "m1", name := some "Placed Order" }] =
      some { id := "m1", name := some "Placed Order" } ∧
    ∀ metrics : List Metric,
      findMetricByName metrics "Placed Order" =
        findMetricByName metrics "placed order" := by
  refine ⟨by decide, by decide, by decide, by decide, fun metrics => ?_⟩
  have hfun : (fun m : Metric => m.name == some "Placed Order" ||
      (m.name.map lowerStr) == some (lowerStr "Placed Order")) =
      (fun m : Metric => m.name == some "placed order" ||
      (m.name.map lowerStr) == some (lowerStr "placed order")) := by
    funext m
    cases hm : m.name with
    | none => simp
    | some n =>
      have e1 : lowerStr "Placed Order" = "placed order" := by decide
      have e2 : lowerStr "placed order" = "placed order" := by decide
      by_cases hn : lowerStr n = "placed order"
      · simp [e1, e2, hn]
      · have hb1 : (n == "Placed Order") = false :=
          beq_eq_false_iff_ne.2 (by rintro rfl; exact hn (by decide))
        have hb2 : (n == "placed order") = false :=
          beq_eq_false_iff_ne.2 (by rintro rfl; exact hn (by decide))
        have hb3 : (lowerStr n == "placed order") = false :=
          beq_eq_false_iff_ne.2 hn
        simp [e1, e2, hb1, hb2, hb3]
  unfold findMetricByName
  exact congrArg (fun p => List.find? p metrics) hfun

/-- Counterexample to C4 as stated: with metrics present but no Placed
Order metric, `/api/revenue/total` returns the error envelope instead of
a successful zero-revenue report. -/
theorem missing_metric_counterexample : ¬ claimC4 := by
  intro h
  obtain ⟨r, hr, -⟩ := h cexC4Input rfl
  have hfail : revenueTotal cexC4Input =
      .failure "Placed Order metric not found" := rfl
  rw [hfail] at hr
  exact RevenueTotalResult.noConfusion hr

/-- C4 (amended): the absence of the Placed Order metric makes
`/api/revenue/total` return the error envelope, while the
`src/server.js` `/api/campaigns` endpoint degrades gracefully: it returns
success with every campaign listed, ids preserved, and all metrics
zeroed. -/
theorem missing_metric_behavior :
    (∀ inp : RevenueTotalInputs, findPlacedOrder_p001 inp.metrics = none →
      revenueTotal inp = .failure "Placed Order metric not found") ∧
    (∀ (metrics : List Metric) (emailCs smsCs : List Campaign),
      findPlacedOrder_server metrics = none →
      serverCampaignsRoute metrics emailCs smsCs =
        .earlyReturn true (campaignsFallbackData (emailCs ++ smsCs) smsCs)
          (emailCs ++ smsCs).length) ∧
    (∀ (campaigns smsCs : List Campaign) (row : FallbackCampaignRow),
      row ∈ campaignsFallbackData campaigns smsCs →
      row.recipients = 0 ∧ row.opens = 0 ∧ row.clicks = 0 ∧
      row.revenue = 0 ∧ row.conversions = 0) ∧
    (∀ campaigns smsCs : List Campaign,
      (campaignsFallbackData campaigns smsCs).map (fun row => row.id) =
        campaigns.map (fun c => c.id)) := by
  refine ⟨fun inp h => ?_, fun metrics e s h => ?_, fun campaigns s row hrow => ?_,
    fun campaigns s => ?_⟩
  · simp [revenueTotal, h]
  · simp [serverCampaignsRoute, h]
  · obtain ⟨c, hc, rfl⟩ := List.mem_map.1 hrow
    exact ⟨rfl, rfl, rfl, rfl, rfl⟩
  · simp [campaignsFallbackData]

/-- The `revenueTotal` success case comes from the assembled report. -/
theorem success_inv (inp : RevenueTotalInputs) (r : RevenueTotalReport)
    (hr : revenueTotal inp = .success r) : r = revenueTotalReportOf inp := by
  unfold revenueTotal at hr
  cases hpo : findPlacedOrder_p001 inp.metrics with
  | none => rw [hpo] at hr; exact RevenueTotalResult.noConfusion hr
  | some m => rw [hpo] at hr; injection hr with h; exact h.symm

/-- C7 (amended): every flow row of a successful report comes from a
non-draft flow (draft flows produce no row), but the response's
`attributedFlowRevenue` side map is the raw grouped aggregate keyed by
flow id, which is not draft-filtered. -/
theorem draft_flow_exclusion (inp : RevenueTotalInputs) (r : RevenueTotalReport)
    (hr : revenueTotal inp = .success r) :
    (∀ row ∈ r.flows,
      ∃ f, f ∈ inp.flowsB ∧ flowNotDraft f = true ∧ row.id = f.id) ∧
    r.attributedFlowRevenue = extractGroupedSum inp.flowRevenueAggData := by
  have hrep := success_inv inp r hr
  subst hrep
  constructor
  · intro row hrow
    have hrow2 : row ∈ flowsTableOf inp := hrow
    obtain ⟨f, hf, rfl⟩ := List.mem_map.1 hrow2
    have hf2 := List.mem_filter.1 hf
    exact ⟨f, hf2.1, hf2.2, rfl⟩
  · rfl

/-- Counterexample to C7 as stated: with one draft flow credited 50 of
revenue by the grouped aggregate, the report has no flow row for it and
yet its id still carries revenue inside the response's
`attributedFlowRevenue` map. -/
theorem draft_flow_exclusion_counterexample : ¬ claimC7 := by
  intro h
  have h2 := h cexC7Input (revenueTotalReportOf cexC7Input) rfl
    { id := "F1", name := some "Draft Flow", status := some "draft" }
    (by decide) (by decide)
  exact absurd h2.2 (by decide)

/-- Witness for C7: on concrete inputs with one active flow, its report
row traces back to a non-draft flow of the fetch and the side map equals
the raw grouped aggregate. -/
theorem draft_flow_exclusion_witness :
    (∃ f, f ∈ witC7Input.flowsB ∧ flowNotDraft f = true ∧
      (⟨"F1", "Active Flow", "live", none, none, 0, 0, 0, 50, 0, 0, 0⟩ :
        FlowRow).id = f.id) ∧
    (revenueTotalReportOf witC7Input).attributedFlowRevenue =
      extractGroupedSum witC7Input.flowRevenueAggData := by
  have h := draft_flow_exclusion witC7Input (revenueTotalReportOf witC7Input) rfl
  exact ⟨h.1 _ (by decide), h.2⟩

theorem lookup_map_pair {β γ : Type} (g : String × β → γ)
    (l : List (String × β)) (k : String) :
    (l.map (fun p => (p.1, g p))).lookup k =
      (l.lookup k).map (fun v => g (k, v)) := by
  induction l with
  | nil => rfl
  | cons p rest ih =>
    obtain ⟨k', v⟩ := p
    by_cases h : k = k'
    · subst h; simp [List.lookup]
    · simp [List.lookup, beq_eq_false_iff_ne.2 h, ih]

theorem campaignMetricsOf_lookupD (inp : RevenueTotalInputs) (k : String) :
    lookupD (campaignMetricsOf inp) k {} = {} ∨
    ∃ mids, lookupD (campaignMetricsOf inp) k {} =
      campaignMetricsFor k mids (messageTypeFor inp.included k)
        (inp.campaignRevenueAgg k) (inp.campaignConversionsAgg k)
        (messageOpensMapOf inp) (messageClicksMapOf inp)
        (messageRecipientsMapOf inp) := by
  unfold lookupD campaignMetricsOf
  rw [lookup_map_pair (fun p =>
    campaignMetricsFor p.1 p.2 (messageTypeFor inp.included p.1)
      (inp.campaignRevenueAgg p.1) (inp.campaignConversionsAgg p.1)
      (messageOpensMapOf inp) (messageClicksMapOf inp)
      (messageRecipientsMapOf inp))]
  cases (campaignToMessageIdsOf inp).lookup k with
  | none => exact Or.inl rfl
  | some mids => exact Or.inr ⟨mids, rfl⟩

theorem rate_formula_nonneg (x rec : ℤ) (h : 0 ≤ x) :
    0 ≤ (if 0 < rec then (x : ℚ) / (rec : ℚ) * 100 else 0) := by
  split
  next hrec =>
    apply mul_nonneg _ (by norm_num)
    apply div_nonneg
    · exact_mod_cast h
    · exact le_of_lt (by exact_mod_cast hrec)
  next => exact le_refl 0

theorem cmetrics_rate_eq (inp : RevenueTotalInputs) (k : String) :
    ((lookupD (campaignMetricsOf inp) k {}).openRate =
      if 0 < (lookupD (campaignMetricsOf inp) k {}).recipients then
        ((lookupD (campaignMetricsOf inp) k {}).opens : ℚ) /
          ((lookupD (campaignMetricsOf inp) k {}).recipients : ℚ) * 100
      else 0) ∧
    ((lookupD (campaignMetricsOf inp) k {}).clickRate =
      if 0 < (lookupD (campaignMetricsOf inp) k {}).recipients then
        ((lookupD (campaignMetricsOf inp) k {}).clicks : ℚ) /
          ((lookupD (campaignMetricsOf inp) k {}).recipients : ℚ) * 100
      else 0) := by
  rcases campaignMetricsOf_lookupD inp k with h | ⟨mids, h⟩ <;> rw [h]
  · constructor <;> simp
  · constructor <;> rfl

/-- C3 (amended): in every successfully assembled report, every campaign
row and flow row carries `openRate = opens/recipients*100` and
`clickRate = clicks/recipients*100` when `recipients > 0` and exactly 0
otherwise (in particular 0 whenever `recipients = 0`), and the rates are
nonnegative whenever the counts are; the bound 100 is not guaranteed,
since opens and clicks count repeat events and may exceed recipients. -/
theorem report_rates (inp : RevenueTotalInputs) (r : RevenueTotalReport)
    (hr : revenueTotal inp = .success r) :
    (∀ row ∈ r.campaigns,
      (row.openRate = if 0 < row.recipients then
        (row.opens : ℚ) / (row.recipients : ℚ) * 100 else 0) ∧
      (row.clickRate = if 0 < row.recipients then
        (row.clicks : ℚ) / (row.recipients : ℚ) * 100 else 0) ∧
      (0 ≤ row.opens → 0 ≤ row.openRate) ∧
      (0 ≤ row.clicks → 0 ≤ row.clickRate)) ∧
    (∀ row ∈ r.flows,
      (row.openRate = if 0 < row.recipients then
        (row.opens : ℚ) / (row.recipients : ℚ) * 100 else 0) ∧
      (row.clickRate = if 0 < row.recipients then
        (row.clicks : ℚ) / (row.recipients : ℚ) * 100 else 0) ∧
      (0 ≤ row.opens → 0 ≤ row.openRate) ∧
      (0 ≤ row.clicks → 0 ≤ row.clickRate)) := by
  have hrep := success_inv inp r hr
  subst hrep
  constructor
  · intro row hrow
    have hrow2 : row ∈ campaignsTableOf inp := hrow
    obtain ⟨c, hc, rfl⟩ := List.mem_map.1 hrow2
    obtain ⟨h1, h2⟩ := cmetrics_rate_eq inp c.id
    refine ⟨h1, h2, fun ho => ?_, fun hcl => ?_⟩
    · rw [show (mkCampaignRow c (lookupD (campaignMetricsOf inp) c.id {})).openRate =
        (lookupD (campaignMetricsOf inp) c.id {}).openRate from rfl, h1]
      exact rate_formula_nonneg _ _ ho
    · rw [show (mkCampaignRow c (lookupD (campaignMetricsOf inp) c.id {})).clickRate =
        (lookupD (campaignMetricsOf inp) c.id {}).clickRate from rfl, h2]
      exact rate_formula_nonneg _ _ hcl
  · intro row hrow
    have hrow2 : row ∈ flowsTableOf inp := hrow
    obtain ⟨f, hf, rfl⟩ := List.mem_map.1 hrow2
    refine ⟨rfl, rfl, fun ho => ?_, fun hcl => ?_⟩
    · exact rate_formula_nonneg _ _ ho
    · exact rate_formula_nonneg _ _ hcl

/-- Counterexample to C3 as stated: under the concrete inputs where flow
F1 counts 2 opens against 1 recipient, the assembled flow row carries an
open rate of 200, outside the interval claimed. -/
theorem report_rates_counterexample : ¬ claimC3 := by
  intro h
  have h2 := (h cexC3Input (revenueTotalReportOf cexC3Input) rfl).2
    ⟨"F1", "Welcome Flow", "live", none, none, 1, 2, 0, 0, 0, 200, 0⟩
    (by with_unfolding_all decide)
  exact absurd h2.2.1 (by decide)

/-- Witness for C3: the concrete flow row of the witness input evaluates
its open rate to opens/recipients*100. -/
theorem report_rates_witness :
    (⟨"F1", "Welcome Flow", "live", none, none, 1, 2, 0, 0, 0, 200, 0⟩ :
      FlowRow).openRate = 200 := by
  have h := ((report_rates cexC3Input (revenueTotalReportOf cexC3Input) rfl).2
    ⟨"F1", "Welcome Flow", "live", none, none, 1, 2, 0, 0, 0, 200, 0⟩
    (by with_unfolding_all decide)).1
  exact h.trans (by norm_num)

theorem map_congr_mem {α β : Type} (l : List α) (f g : α → β)
    (h : ∀ x ∈ l, f x = g x) : l.map f = l.map g := by
  induction l with
  | nil => rfl
  | cons x xs ih => simp_all

theorem lookup_setKey_self {β : Type} (m : List (String × β)) (k : String) (v : β) :
    (setKey m k v).lookup k = some v := by
  induction m with
  | nil => simp [setKey, List.lookup]
  | cons p rest ih =>
    obtain ⟨k', v'⟩ := p
    by_cases h : k' = k
    · subst h; simp [setKey, List.lookup]
    · simp [setKey, h, List.lookup, beq_eq_false_iff_ne.2 (Ne.symm h), ih]

theorem lookup_setKey_ne {β : Type} (m : List (String × β)) (k k₀ : String) (v : β)
    (h : k₀ ≠ k) : (setKey m k v).lookup k₀ = m.lookup k₀ := by
  induction m with
  | nil => simp [setKey, List.lookup, beq_eq_false_iff_ne.2 h]
  | cons p rest ih =>
    obtain ⟨k', v'⟩ := p
    by_cases hk : k' = k
    · subst hk
      simp [setKey, List.lookup, beq_eq_false_iff_ne.2 h]
    · cases hbeq : (k₀ == k') <;> simp [setKey, hk, List.lookup, hbeq, ih]

theorem lookup_foldl_setKey_isSome {β : Type} (f : Campaign → β)
    (cs : List Campaign) (init : List (String × β)) (k : String)
    (h : k ∈ cs.map (fun c => c.id) ∨ (init.lookup k).isSome) :
    ((cs.foldl (fun m c => setKey m c.id (f c)) init).lookup k).isSome := by
  induction cs generalizing init with
  | nil =>
    rcases h with h | h
    · simp at h
    · exact h
  | cons c rest ih =>
    apply ih
    rcases h with hmem | hinit
    · rcases List.mem_map.1 hmem with ⟨c', hc', hid⟩
      rcases List.mem_cons.1 hc' with rfl | hc'
      · right; rw [← hid, lookup_setKey_self]; rfl
      · left; exact List.mem_map.2 ⟨c', hc', hid⟩
    · by_cases hk : k = c.id
      · right; subst hk; rw [lookup_setKey_self]; rfl
      · right; rw [lookup_setKey_ne _ _ _ _ hk]; exact hinit

theorem lookup_kerase_ne {β : Type} (m : List (String × β)) (k k₀ : String)
    (h : k₀ ≠ k) : (kerase m k).lookup k₀ = m.lookup k₀ := by
  induction m with
  | nil => rfl
  | cons p rest ih =>
    obtain ⟨k', v'⟩ := p
    by_cases hk : k' = k
    · subst hk
      simp [kerase, List.lookup, beq_eq_false_iff_ne.2 h]
    · cases hbeq : (k₀ == k') <;> simp [kerase, hk, List.lookup, hbeq, ih]

theorem mem_kerase {β : Type} (p : String × β) (m : List (String × β))
    (k : String) (h : p ∈ kerase m k) : p ∈ m := by
  induction m with
  | nil => simp [kerase] at h
  | cons q rest ih =>
    obtain ⟨k', v'⟩ := q
    by_cases hk : k' = k
    · subst hk
      simp [kerase] at h
      exact List.mem_cons_of_mem _ h
    · simp [kerase, hk] at h
      rcases h with rfl | h
      · exact List.mem_cons_self _ _
      · exact List.mem_cons_of_mem _ (ih h)

theorem sum_snd_kerase (m : List (String × ℚ)) (k : String) (v : ℚ)
    (h : m.lookup k = some v) :
    (m.map Prod.snd).sum = v + ((kerase m k).map Prod.snd).sum := by
  induction m with
  | nil => simp [List.lookup] at h
  | cons p rest ih =>
    obtain ⟨k', v'⟩ := p
    by_cases hk : k' = k
    · subst hk
      simp [List.lookup] at h
      subst h
      simp [kerase]
    · have hbeq : (k == k') = false := beq_eq_false_iff_ne.2 (fun he => hk he.symm)
      simp [List.lookup, hbeq] at h
      simp [kerase, hk, ih h]
      ring

theorem sum_lookups_le (keys : List String) (m : List (String × ℚ))
    (hnd : keys.Nodup) (hnn : ∀ p ∈ m, 0 ≤ p.2) :
    (keys.map (fun k => lookupD m k 0)).sum ≤ (m.map Prod.snd).sum := by
  induction keys generalizing m with
  | nil =>
    simp only [List.map_nil, List.sum_nil]
    refine List.sum_nonneg ?_
    intro x hx
    obtain ⟨p, hp, rfl⟩ := List.mem_map.1 hx
    exact hnn p hp
  | cons k ks ih =>
    have hk : k ∉ ks := (List.nodup_cons.1 hnd).1
    have hnd' : ks.Nodup := (List.nodup_cons.1 hnd).2
    cases hl : m.lookup k with
    | none =>
      have h0 : lookupD m k 0 = 0 := by simp [lookupD, hl]
      simp only [List.map_cons, List.sum_cons, h0, zero_add]
      exact ih m hnd' hnn
    | some v =>
      have hv : lookupD m k 0 = v := by simp [lookupD, hl]
      have hrest : ks.map (fun k' => lookupD m k' 0) =
          ks.map (fun k' => lookupD (kerase m k) k' 0) := by
        apply map_congr_mem
        intro k' hk'
        have hne : k' ≠ k := fun he => hk (he ▸ hk')
        simp [lookupD, lookup_kerase_ne _ _ _ hne]
      have hih := ih (kerase m k) hnd' (fun p hp => hnn p (mem_kerase p m k hp))
      calc ((k :: ks).map (fun k' => lookupD m k' 0)).sum
          = v + (ks.map (fun k' => lookupD (kerase m k) k' 0)).sum := by
            simp [hv, hrest]
        _ ≤ v + ((kerase m k).map Prod.snd).sum := by linarith
        _ = (m.map Prod.snd).sum := (sum_snd_kerase m k v hl).symm

theorem campaigns_revenue_sum (inp : RevenueTotalInputs) :
    ((campaignsTableOf inp).map (fun row => row.revenue)).sum =
      if (filteredCampaignsOf inp).isEmpty then 0
      else ((filteredCampaignsOf inp).map
        (fun c => campaignRevenueFrom c.id (inp.campaignRevenueAgg c.id))).sum := by
  by_cases he : (filteredCampaignsOf inp).isEmpty
  · rw [if_pos he]
    have hnil : filteredCampaignsOf inp = [] := List.isEmpty_iff.1 he
    have hmet : campaignMetricsOf inp = [] := by
      unfold campaignMetricsOf campaignToMessageIdsOf
      rw [hnil]; rfl
    unfold campaignsTableOf
    rw [List.map_map]
    have : ∀ c ∈ filteredCampaigns2Of inp,
        ((fun row => row.revenue) ∘
          (fun c => mkCampaignRow c (lookupD (campaignMetricsOf inp) c.id {}))) c
          = (0 : ℚ) := by
      intro c hc
      simp [Function.comp, hmet, lookupD, List.lookup, mkCampaignRow,
        CMetrics.revenue]
    rw [map_congr_mem _ _ _ this]
    simp
  · rw [if_neg he]
    unfold campaignsTableOf
    have h2 : filteredCampaigns2Of inp = filteredCampaignsOf inp := by
      unfold filteredCampaigns2Of
      rw [if_neg he]
    rw [h2, List.map_map]
    congr 1
    apply map_congr_mem
    intro c hc
    have hid : c.id ∈ (filteredCampaignsOf inp).map (fun c => c.id) :=
      List.mem_map.2 ⟨c, hc, rfl⟩
    have hsome := lookup_foldl_setKey_isSome messageIdsFor
      (filteredCampaignsOf inp) [] c.id (Or.inl hid)
    obtain ⟨mids, hmids⟩ := Option.isSome_iff_exists.1 hsome
    have hlook : (campaignMetricsOf inp).lookup c.id = some
        (campaignMetricsFor c.id mids (messageTypeFor inp.included c.id)
          (inp.campaignRevenueAgg c.id) (inp.campaignConversionsAgg c.id)
          (messageOpensMapOf inp) (messageClicksMapOf inp)
          (messageRecipientsMapOf inp)) := by
      unfold campaignMetricsOf
      rw [lookup_map_pair (fun p =>
        campaignMetricsFor p.1 p.2 (messageTypeFor inp.included p.1)
          (inp.campaignRevenueAgg p.1) (inp.campaignConversionsAgg p.1)
          (messageOpensMapOf inp) (messageClicksMapOf inp)
          (messageRecipientsMapOf inp))]
      have : (campaignToMessageIdsOf inp).lookup c.id = some mids := hmids
      rw [this]
      rfl
    simp [Function.comp, lookupD, hlook, mkCampaignRow, campaignMetricsFor]

/-- C2 (amended): the report forwards per-campaign and per-flow revenues
from upstream aggregates that are independent of the ungrouped total, so
the claimed bound holds exactly when those upstream figures are
consistent: whenever the summed per-campaign grouped revenues plus the
summed flow-grouped revenues do not exceed the ungrouped total (and flow
ids are distinct with nonnegative grouped revenues), the assembled
report's campaign revenues plus flow revenues stay within its
totalRevenue. -/
theorem revenue_reconciliation_conditional (inp : RevenueTotalInputs)
    (r : RevenueTotalReport) (hr : revenueTotal inp = .success r)
    (hnodup : (inp.flowsB.map (fun f => f.id)).Nodup)
    (hnn : ∀ p ∈ extractGroupedSum inp.flowRevenueAggData, 0 ≤ p.2)
    (hcons : ((filteredCampaignsOf inp).map
        (fun c => campaignRevenueFrom c.id (inp.campaignRevenueAgg c.id))).sum +
      ((extractGroupedSum inp.flowRevenueAggData).map Prod.snd).sum ≤
      extractTotalRevenue inp.totalAggData) :
    ((r.campaigns.map (fun row => row.revenue)).sum +
      (r.flows.map (fun row => row.revenue)).sum) ≤ r.totalRevenue := by
  have hrep := success_inv inp r hr
  subst hrep
  have hflowrows : (flowsTableOf inp).map (fun row => row.revenue) =
      ((activeFlowsOf inp).map (fun f => f.id)).map
        (fun k => lookupD (extractGroupedSum inp.flowRevenueAggData) k 0) := by
    unfold flowsTableOf
    rw [List.map_map, List.map_map]
    rfl
  have hndactive : ((activeFlowsOf inp).map (fun f => f.id)).Nodup := by
    have hsub : List.Sublist ((activeFlowsOf inp).map (fun f => f.id))
        (inp.flowsB.map (fun f => f.id)) := by
      unfold activeFlowsOf
      exact (List.filter_sublist _).map (fun f : Flow => f.id)
    exact hnodup.sublist hsub
  have hflow : ((flowsTableOf inp).map (fun row => row.revenue)).sum ≤
      ((extractGroupedSum inp.flowRevenueAggData).map Prod.snd).sum := by
    rw [hflowrows]
    exact sum_lookups_le _ _ hndactive hnn
  have hcamp := campaigns_revenue_sum inp
  have htot : (revenueTotalReportOf inp).totalRevenue =
      extractTotalRevenue inp.totalAggData := rfl
  have hcrows : (revenueTotalReportOf inp).campaigns = campaignsTableOf inp := rfl
  have hfrows : (revenueTotalReportOf inp).flows = flowsTableOf inp := rfl
  rw [htot, hcrows, hfrows, hcamp]
  by_cases he : (filteredCampaignsOf inp).isEmpty
  · rw [if_pos he]
    have hnil : filteredCampaignsOf inp = [] := List.isEmpty_iff.1 he
    rw [hnil] at hcons
    simp only [List.map_nil, List.sum_nil, zero_add] at hcons ⊢
    linarith
  · rw [if_neg he]
    linarith

/-- Counterexample to C2 as stated: under inputs where the flow-grouped
aggregate credits 100 to flow F1 while the ungrouped total aggregate
reports 0, the assembled report carries flow revenue 100 against
totalRevenue 0, exceeding it by far more than rounding. -/
theorem revenue_reconciliation_counterexample : ¬ claimC2 := by
  intro h
  have h2 := h cexC2Input (revenueTotalReportOf cexC2Input) rfl
  exact absurd h2 (by with_unfolding_all decide)

/-- Witness for C2: on concrete, mutually consistent upstream aggregates
(total 100, one active flow credited 50) the assembled report keeps the
attributed revenues within its total. -/
theorem revenue_reconciliation_witness :
    (((revenueTotalReportOf witC2Input).campaigns.map (fun row => row.revenue)).sum +
      ((revenueTotalReportOf witC2Input).flows.map (fun row => row.revenue)).sum) ≤
      (revenueTotalReportOf witC2Input).totalRevenue :=
  revenue_reconciliation_conditional witC2Input (revenueTotalReportOf witC2Input)
    rfl (by decide) (by with_unfolding_all decide) (by with_unfolding_all decide)

end KlaviyoDashboard
